import Mathlib

/-!
Verification of the pulp plugin-binding lifecycle manager
(`pulp/server/managers/repo/distributor.py`, `RepoDistributorManager`) and of
the worker-fleet liveness tracker, as a shallow embedding in Lean 4.

Conventions of the embedding:

* Python dicts become association lists `List (String × α)`; the document
  store's collections become lists of records.  The collections carry a unique
  composite key `(repo_id, id)` (enforced by the store), so removing "all
  records with this key" and removing "the one found record" coincide; we use
  the filter form.
* A configuration value that Python stores as `None` is modelled by `none` in
  `Option V`, so a config dict is `List (String × Option V)`.
* A Python call that may raise is a `CallResult E α`; an uncaught exception
  propagating out of a manager operation is the error `PulpError.raised e`,
  while the explicitly raised pulp exceptions get their own constructors.
* A manager operation returns an `OpResult`: either a value or an error,
  in both cases together with the database state at that moment (state
  changes already flushed before an exception persist, as in the source).
-/

/-- Python dict modelled as an association list keyed by strings. -/
abbrev Dict (α : Type) := List (String × α)

/-- Lookup of a key in a dict (`d[k]` / `d.get(k)`): first matching entry. -/
def dictFind (d : Dict α) (k : String) : Option α :=
  (d.find? (fun p => p.1 == k)).map Prod.snd

/-- Removal of a key from a dict (`d.pop(k, None)`). -/
def dictErase (d : Dict α) (k : String) : Dict α :=
  d.filter (fun p => !(p.1 == k))

/-- Assignment `d[k] = v`; the position of an existing key is irrelevant to
lookup, so we place the new entry at the end. -/
def dictInsert (d : Dict α) (k : String) (v : α) : Dict α :=
  dictErase d k ++ [(k, v)]

/-- Python `d.update(e)`: every entry of `e` is assigned into `d`. -/
def dictUpdate (d e : Dict α) : Dict α :=
  e.foldl (fun acc p => dictInsert acc p.1 p.2) d

/-- Keys of a dict. -/
def dictKeys (d : Dict α) : List String :=
  d.map Prod.fst

/-- Outcome of calling a Python function that may raise: a value or an
exception carrying payload `E`. -/
inductive CallResult (E α : Type) where
  | ok (val : α)
  | exc (e : E)
deriving DecidableEq

/-- Return shape of `validate_config`: legacy plugins return a bare bool,
newer ones a `(bool, message)` tuple; both must be accepted. -/
inductive ValidateReturn (M : Type) where
  | bool (b : Bool)
  | tuple (valid : Bool) (message : Option M)
deriving DecidableEq

/-- Normalization of the two `validate_config` return shapes, mirroring the
`isinstance(result, bool)` branch in the source. -/
def normalizeValidate : ValidateReturn M → Bool × Option M
  | .bool b => (b, none)
  | .tuple b m => (b, m)

/-- Value of the `auto_publish` field: a boolean, or (for the type check in
`update_distributor_config`) some non-boolean Python value. -/
inductive PyBool (V : Type) where
  | bool (b : Bool)
  | other (v : V)
deriving DecidableEq

/-- The pulp exceptions raised by the manager, plus `raised` for an uncaught
plugin exception propagating out of the operation.  `MissingResource` carries
its keyword arguments as name/value pairs; `PulpDataException` appears twice:
`dataException message` for an explicit rejection and `dataWrapped args` for
`PulpDataException(e.args)` wrapping a validation exception. -/
inductive PulpError (E M : Type) where
  | missingResource (resources : List (String × String))
  | invalidValue (property_names : List String)
  | dataException (message : Option M)
  | dataWrapped (args : E)
  | executionException
  | raised (e : E)
deriving DecidableEq

/-- Predicate for "this failure is a PulpDataException" (either payload). -/
def PulpError.isDataException : PulpError E M → Bool
  | .dataException _ => true
  | .dataWrapped _ => true
  | _ => false

/-- Result of a manager operation: value or error, each with the database
state when the operation finished (partial writes persist on error, as in
the source, where an exception does not roll back earlier collection
updates). -/
inductive OpResult (E M σ α : Type) where
  | ok (val : α) (state : σ)
  | err (e : PulpError E M) (state : σ)
deriving DecidableEq

/-- `PluginCallConfiguration(plugin_config, repo_plugin_config)`: the pair of
the plugin's static default config and the repo-supplied config (which may be
Python `None`). -/
structure PluginCallConfiguration (V : Type) where
  plugin_config : Dict (Option V)
  repo_plugin_config : Option (Dict (Option V))
deriving DecidableEq

/-- A distributor plugin instance: its default configuration and its
capability callbacks, each an arbitrary function of the call configuration
that may raise. -/
structure DistributorPlugin (V E M : Type) where
  plugin_config : Dict (Option V)
  validate_config : PluginCallConfiguration V → CallResult E (ValidateReturn M)
  distributor_added : PluginCallConfiguration V → CallResult E Unit
  distributor_removed : PluginCallConfiguration V → CallResult E Unit

/-- The plugin registry (`pulp.plugins.loader.api`). -/
structure PluginApi (V E M : Type) where
  is_valid_distributor : String → Bool
  get_distributor_by_id : String → DistributorPlugin V E M

/-- Modelled from the spec: the `RepoDistributor` document (§3 of the spec;
the db model class `pulp.server.db.model.repository.RepoDistributor` is not
under src/).  Fields are the ones the manager reads and writes: owner id,
binding id, immutable plugin type id, the config mapping (an absent supplied
config is stored as the empty mapping), the `auto_publish` flag, the opaque
scratchpad (absent field modelled as `none`) and the schedule-id list. -/
structure RepoDistributor (V : Type) where
  repo_id : String
  id : String
  distributor_type_id : String
  config : Dict (Option V)
  auto_publish : PyBool V
  scratchpad : Option V
  scheduled_publishes : List String
deriving DecidableEq

/-- The document store: the repo collection (only existence of an id is
consulted by the manager), the distributor collection, and the publish
schedules owned by the scheduling collaborator. -/
structure Database (V : Type) where
  repos : List String
  distributors : List (RepoDistributor V)
  publish_schedules : List (String × String)
deriving DecidableEq

/-- `find_one({'repo_id': repo_id, 'id': distributor_id})` on the distributor
collection. -/
def find_one_distributor (l : List (RepoDistributor V)) (repo_id distributor_id : String) :
    Option (RepoDistributor V) :=
  l.find? (fun d => d.repo_id == repo_id && d.id == distributor_id)

/-- `is_distributor_id_valid`: full match of `^[-_A-Za-z0-9]+$`, expressed
over the character list of the identifier. -/
def is_distributor_id_valid (distributor_id : String) : Bool :=
  !distributor_id.data.isEmpty &&
    distributor_id.data.all (fun c => c == '-' || c == '_' || c.isAlphanum)

/-- The `None`-stripping convention of `add_distributor`: keys explicitly set
to `None` are removed before the map is validated or persisted. -/
def stripNone (cfg : Dict (Option V)) : Dict (Option V) :=
  cfg.filter (fun p => p.2.isSome)

/-- `get_distributor`: a single `find_one` on the distributor collection; the
repo collection is never consulted. -/
def get_distributor (repo_id distributor_id : String) (db : Database V) :
    OpResult E M (Database V) (RepoDistributor V) :=
  match find_one_distributor db.distributors repo_id distributor_id with
  | none => .err (.missingResource [("distributor", distributor_id)]) db
  | some d => .ok d db

/-- `find_by_repo_list`: all distributors whose `repo_id` is in the list,
with the `scratchpad` field projected out (`{'scratchpad': 0}`; reading the
absent field yields `none`). -/
def find_by_repo_list (repo_id_list : List String) (db : Database V) :
    List (RepoDistributor V) :=
  (db.distributors.filter (fun d => repo_id_list.contains d.repo_id)).map
    (fun d => { d with scratchpad := none })

/-- Modelled from the spec: `delete_all_schedules_for(owner_id, binding_id)`
(§6); `RepoPublishScheduleManager.delete_by_distributor_id` is not under
src/.  Deletes every schedule association of the given binding. -/
def delete_by_distributor_id (repo_id distributor_id : String) (db : Database V) :
    Database V :=
  { db with publish_schedules :=
      db.publish_schedules.filter (fun p => !(p.1 == repo_id && p.2 == distributor_id)) }

/-- `remove_distributor`: repo check, binding check, schedule deletion,
`distributor_removed` callback (an exception propagates unwrapped, with the
schedule deletion already flushed), then the document delete. -/
def remove_distributor (api : PluginApi V E M) (repo_id distributor_id : String)
    (db : Database V) : OpResult E M (Database V) Unit :=
  if db.repos.contains repo_id then
    match find_one_distributor db.distributors repo_id distributor_id with
    | none => .err (.missingResource [("distributor", distributor_id)]) db
    | some repo_distributor =>
      let s1 := delete_by_distributor_id repo_id repo_distributor.id db
      let plugin := api.get_distributor_by_id repo_distributor.distributor_type_id
      let call_config : PluginCallConfiguration V :=
        ⟨plugin.plugin_config, some repo_distributor.config⟩
      match plugin.distributor_removed call_config with
      | .exc e => .err (.raised e) s1
      | .ok _ =>
        .ok () { s1 with distributors :=
          (s1.distributors.filter
            (fun d => !(d.repo_id == repo_id && d.id == distributor_id))) }
  else .err (.missingResource [("repository", repo_id)]) db

/-- Steps of `add_distributor` after the distributor id is determined:
config cleaning, validation (no try/except here — a validation exception
propagates unwrapped), replacement of an existing binding, the
`distributor_added` callback (wrapped as `PulpExecutionException`, raised
before the document write), and the save. -/
def add_distributor_steps (api : PluginApi V E M) (repo_id distributor_type_id : String)
    (repo_plugin_config : Option (Dict (Option V))) (auto_publish : PyBool V)
    (distributor_id : String) (db : Database V) :
    OpResult E M (Database V) (RepoDistributor V) :=
  let plugin := api.get_distributor_by_id distributor_type_id
  let clean_config := Option.map stripNone repo_plugin_config
  let call_config : PluginCallConfiguration V := ⟨plugin.plugin_config, clean_config⟩
  match plugin.validate_config call_config with
  | .exc e => .err (.raised e) db
  | .ok result =>
    let nm := normalizeValidate result
    if nm.1 then
      let proceed : Database V → OpResult E M (Database V) (RepoDistributor V) := fun s =>
        match plugin.distributor_added call_config with
        | .exc _ => .err .executionException s
        | .ok _ =>
          let distributor : RepoDistributor V :=
            { repo_id := repo_id, id := distributor_id,
              distributor_type_id := distributor_type_id,
              config := clean_config.getD [], auto_publish := auto_publish,
              scratchpad := none, scheduled_publishes := [] }
          .ok distributor { s with distributors := s.distributors ++ [distributor] }
      match remove_distributor api repo_id distributor_id db with
      | .err (.missingResource _) s => proceed s
      | .err e s => .err e s
      | .ok _ s => proceed s
    else .err (.dataException nm.2) db

/-- `add_distributor`: repo check, plugin-type check, distributor-id
generation/validation (`fresh_id` stands for the generated `uuid4` token,
which is not validity-checked), then `add_distributor_steps`. -/
def add_distributor (api : PluginApi V E M) (fresh_id : String)
    (repo_id distributor_type_id : String)
    (repo_plugin_config : Option (Dict (Option V))) (auto_publish : PyBool V)
    (distributor_id : Option String) (db : Database V) :
    OpResult E M (Database V) (RepoDistributor V) :=
  if db.repos.contains repo_id then
    if api.is_valid_distributor distributor_type_id then
      match distributor_id with
      | none =>
        add_distributor_steps api repo_id distributor_type_id repo_plugin_config
          auto_publish fresh_id db
      | some d =>
        if is_distributor_id_valid d then
          add_distributor_steps api repo_id distributor_type_id repo_plugin_config
            auto_publish d db
        else .err (.invalidValue ["distributor_id"]) db
    else .err (.invalidValue ["distributor_type_id"]) db
  else .err (.missingResource [("repository", repo_id)]) db

/-- The delta merge of `update_distributor_config`: keys whose delta value is
`None` are popped from both the stored config and the delta itself, then the
remaining delta entries are merged over the stored config. -/
def mergedConfig (stored delta : Dict (Option V)) : Dict (Option V) :=
  let unset_property_names := dictKeys (delta.filter (fun p => p.2.isNone))
  let merged := unset_property_names.foldl dictErase stored
  let delta2 := unset_property_names.foldl dictErase delta
  dictUpdate merged delta2

/-- `update_distributor_config`: repo check, binding check, delta merge,
validation (exceptions here are wrapped as `PulpDataException(e.args)`),
`auto_publish` type check, then the save of the merged config. -/
def update_distributor_config (api : PluginApi V E M) (repo_id distributor_id : String)
    (distributor_config : Dict (Option V)) (auto_publish : Option (PyBool V))
    (db : Database V) : OpResult E M (Database V) (RepoDistributor V) :=
  if db.repos.contains repo_id then
    match find_one_distributor db.distributors repo_id distributor_id with
    | none => .err (.missingResource [("distributor", distributor_id)]) db
    | some repo_distributor =>
      let merged_config := mergedConfig repo_distributor.config distributor_config
      let plugin := api.get_distributor_by_id repo_distributor.distributor_type_id
      let call_config : PluginCallConfiguration V :=
        ⟨plugin.plugin_config, some merged_config⟩
      match plugin.validate_config call_config with
      | .exc e => .err (.dataWrapped e) db
      | .ok result =>
        let nm := normalizeValidate result
        if nm.1 then
          match auto_publish with
          | some (.other _) => .err (.invalidValue ["auto_publish"]) db
          | ap =>
            let rd2 : RepoDistributor V :=
              { repo_distributor with
                auto_publish := (match ap with
                  | some (.bool b) => PyBool.bool b
                  | _ => repo_distributor.auto_publish),
                config := merged_config }
            .ok rd2 { db with distributors :=
              (db.distributors.map
                (fun d => if d.repo_id == repo_id && d.id == distributor_id then rd2 else d)) }
        else .err (.dataException nm.2) db
  else .err (.missingResource [("repository", repo_id)]) db

/-- A record of the worker registry: identity (`_id`) and last heartbeat. -/
structure Worker where
  name : String
  last_heartbeat : Nat
deriving DecidableEq

/-- The worker registry collection. -/
structure WorkerCollection where
  workers : List Worker
deriving DecidableEq

/-- Modelled from the spec: `handle_worker_heartbeat` (§4.4;
`pulp.server.async.worker_watcher` is not under src/, only its unit test).
First-seen identity: create the record with the event timestamp.  Known
identity: `find_and_modify(query={_id: name}, update={$set:
{last_heartbeat: timestamp}})` — the unconditional set asserted by
`test_handle_worker_heartbeat_update`. -/
def handle_worker_heartbeat (worker_name : String) (timestamp : Nat)
    (c : WorkerCollection) : WorkerCollection :=
  if c.workers.any (fun w => w.name == worker_name) then
    ⟨c.workers.map (fun w =>
      if w.name == worker_name then { w with last_heartbeat := timestamp } else w)⟩
  else
    ⟨c.workers ++ [⟨worker_name, timestamp⟩]⟩

/-- The stored heartbeat of a worker, if the record exists. -/
def lastHeartbeat (c : WorkerCollection) (worker_name : String) : Option Nat :=
  (c.workers.find? (fun w => w.name == worker_name)).map Worker.last_heartbeat

/-! Lemmas about the dict operations. -/

theorem dictFind_cons (p : String × α) (d : Dict α) (k : String) :
    dictFind (p :: d) k = if p.1 == k then some p.2 else dictFind d k := by
  by_cases h : p.1 == k <;> simp [dictFind, List.find?, h]

theorem dictFind_erase (d : Dict α) (k k' : String) :
    dictFind (dictErase d k) k' = if k' = k then none else dictFind d k' := by
  induction d with
  | nil => simp [dictFind, dictErase]
  | cons p d ih =>
    rw [dictErase, List.filter_cons]
    by_cases hpk : p.1 = k
    · have h1 : (!(p.1 == k)) = false := by simp [hpk]
      rw [h1]
      simp only [Bool.false_eq_true, if_false]
      rw [show List.filter (fun p => !(p.1 == k)) d = dictErase d k from rfl, ih]
      by_cases hk : k' = k
      · simp [hk]
      · have h2 : (p.1 == k') = false := by
          simp only [beq_eq_false_iff_ne, ne_eq]
          intro he
          exact hk (by rw [← he, hpk])
        simp [hk, dictFind_cons, h2]
    · have h1 : (!(p.1 == k)) = true := by simp [hpk]
      rw [h1]
      simp only [if_true]
      rw [dictFind_cons,
        show List.filter (fun p => !(p.1 == k)) d = dictErase d k from rfl, ih,
        dictFind_cons]
      by_cases hk : k' = k
      · have h2 : (p.1 == k') = false := by
          simp only [beq_eq_false_iff_ne, ne_eq]
          intro he
          exact hpk (by rw [he, hk])
        simp [hk, h2, hpk]
      · simp [hk]

theorem dictFind_eraseList (ks : List String) (d : Dict α) (k : String) :
    dictFind (ks.foldl dictErase d) k = if k ∈ ks then none else dictFind d k := by
  induction ks generalizing d with
  | nil => simp
  | cons k0 ks ih =>
    rw [List.foldl_cons, ih, dictFind_erase]
    by_cases h0 : k = k0 <;> by_cases hks : k ∈ ks <;> simp [h0, hks]

theorem dictFind_append (d e : Dict α) (k : String) :
    dictFind (d ++ e) k = (dictFind d k).or (dictFind e k) := by
  rw [dictFind, List.find?_append]
  cases h : d.find? (fun p => p.1 == k) <;> simp [dictFind, h]

theorem dictFind_insert (d : Dict α) (k : String) (v : α) (k' : String) :
    dictFind (dictInsert d k v) k' = if k' = k then some v else dictFind d k' := by
  rw [dictInsert, dictFind_append, dictFind_erase]
  by_cases h : k' = k
  · subst h; simp [dictFind]
  · have : (k == k') = false := by simp [Ne.symm h]
    simp [h, dictFind, List.find?, this]

theorem dictFind_eq_none_of_not_mem_keys (d : Dict α) (k : String)
    (h : k ∉ dictKeys d) : dictFind d k = none := by
  rw [dictFind, Option.map_eq_none']
  rw [List.find?_eq_none]
  intro p hp hbeq
  exact h (by
    rw [dictKeys, List.mem_map]
    exact ⟨p, hp, by simpa using hbeq⟩)

theorem dictFind_update (d e : Dict α) (k : String) (hnd : (dictKeys e).Nodup) :
    dictFind (dictUpdate d e) k = (dictFind e k).or (dictFind d k) := by
  induction e generalizing d with
  | nil => simp [dictUpdate, dictFind]
  | cons p e ih =>
    rw [dictKeys, List.map_cons, List.nodup_cons] at hnd
    rw [dictUpdate, List.foldl_cons, ← dictUpdate, ih _ hnd.2, dictFind_cons,
      dictFind_insert]
    by_cases h : k = p.1
    · subst h
      have hnone : dictFind e p.1 = none :=
        dictFind_eq_none_of_not_mem_keys e p.1 hnd.1
      simp [hnone, Option.or]
    · have hb : (p.1 == k) = false := by
        simp only [beq_eq_false_iff_ne, ne_eq]
        exact fun he => h he.symm
      simp [h, hb]

theorem dictKeys_erase_nodup (d : Dict α) (k : String)
    (h : (dictKeys d).Nodup) : (dictKeys (dictErase d k)).Nodup := by
  have hsub : List.Sublist (dictErase d k) d := List.filter_sublist d
  exact h.sublist (hsub.map Prod.fst)

theorem dictKeys_eraseList_nodup (ks : List String) (d : Dict α)
    (h : (dictKeys d).Nodup) : (dictKeys (ks.foldl dictErase d)).Nodup := by
  induction ks generalizing d with
  | nil => exact h
  | cons k0 ks ih => exact ih _ (dictKeys_erase_nodup d k0 h)

theorem dictFind_of_mem_nodup (d : Dict α) (p : String × α)
    (hnd : (dictKeys d).Nodup) (hp : p ∈ d) : dictFind d p.1 = some p.2 := by
  induction d with
  | nil => cases hp
  | cons q d ih =>
    rw [dictKeys, List.map_cons, List.nodup_cons] at hnd
    rcases List.mem_cons.mp hp with h | h
    · subst h; simp [dictFind_cons]
    · have hkey : p.1 ∈ List.map Prod.fst d := List.mem_map.mpr ⟨p, h, rfl⟩
      have hne : q.1 ≠ p.1 := fun he => hnd.1 (he ▸ hkey)
      have hb : (q.1 == p.1) = false := by simp [hne]
      rw [dictFind_cons, hb]
      simp only [Bool.false_eq_true, if_false]
      exact ih hnd.2 h

theorem mem_unsetKeys_iff (delta : Dict (Option V)) (k : String)
    (hnd : (dictKeys delta).Nodup) :
    k ∈ dictKeys (delta.filter (fun p => p.2.isNone)) ↔ dictFind delta k = some none := by
  constructor
  · intro h
    rw [dictKeys, List.mem_map] at h
    obtain ⟨p, hp, hk⟩ := h
    rw [List.mem_filter] at hp
    have h2 : p.2 = none := by
      cases hv : p.2
      · rfl
      · rw [hv] at hp; simp at hp
    have := dictFind_of_mem_nodup delta p hnd hp.1
    rw [hk, h2] at this
    exact this
  · intro h
    rw [dictFind] at h
    cases hf : delta.find? (fun p => p.1 == k) with
    | none => rw [hf] at h; cases h
    | some p =>
      rw [hf] at h
      have hpk : p.1 = k := by
        have := List.find?_some hf
        simpa using this
      have hp2 : p.2 = none := by simpa using h
      have hpm : p ∈ delta := List.mem_of_find?_eq_some hf
      rw [dictKeys, List.mem_map]
      exact ⟨p, List.mem_filter.mpr ⟨hpm, by simp [hp2]⟩, hpk⟩

/-- Pointwise semantics of the delta merge: a key explicitly unset in the
delta disappears, a key set in the delta takes the delta's value, and any
other key keeps its stored value. -/
theorem dictFind_mergedConfig (stored delta : Dict (Option V)) (k : String)
    (hnd : (dictKeys delta).Nodup) :
    dictFind (mergedConfig stored delta) k =
      match dictFind delta k with
      | some none => none
      | some (some v) => some (some v)
      | none => dictFind stored k := by
  rw [mergedConfig]
  have h2 : (dictKeys ((dictKeys (delta.filter (fun p => p.2.isNone))).foldl
      dictErase delta)).Nodup := dictKeys_eraseList_nodup _ delta hnd
  rw [dictFind_update _ _ _ h2, dictFind_eraseList, dictFind_eraseList]
  by_cases hu : k ∈ dictKeys (delta.filter (fun p => p.2.isNone))
  · have := (mem_unsetKeys_iff delta k hnd).mp hu
    simp [hu, this]
  · have hne : dictFind delta k ≠ some none := fun hc =>
      hu ((mem_unsetKeys_iff delta k hnd).mpr hc)
    cases hf : dictFind delta k with
    | none => simp [hu, hf]
    | some v =>
      cases v with
      | none => exact absurd hf hne
      | some v0 => simp [hu, hf]

/-! Lemmas about the distributor collection. -/

theorem find_one_filter_self (l : List (RepoDistributor V)) (r i : String) :
    find_one_distributor
      (l.filter (fun d => !(d.repo_id == r && d.id == i))) r i = none := by
  rw [find_one_distributor, List.find?_eq_none]
  intro d hd hc
  rw [List.mem_filter] at hd
  rw [hc] at hd
  simp at hd

theorem find_one_append_self (l : List (RepoDistributor V)) (x : RepoDistributor V)
    (r i : String) (hx1 : x.repo_id = r) (hx2 : x.id = i)
    (hl : find_one_distributor l r i = none) :
    find_one_distributor (l ++ [x]) r i = some x := by
  rw [find_one_distributor, List.find?_append]
  rw [find_one_distributor] at hl
  rw [hl]
  simp [List.find?, hx1, hx2]

theorem find_one_map_replace (l : List (RepoDistributor V))
    (rd x : RepoDistributor V) (r i : String)
    (h : find_one_distributor l r i = some rd)
    (hx1 : x.repo_id = r) (hx2 : x.id = i) :
    find_one_distributor
      (l.map (fun d => if d.repo_id == r && d.id == i then x else d)) r i = some x := by
  induction l with
  | nil => cases h
  | cons d l ih =>
    rw [find_one_distributor, List.map_cons]
    by_cases hd : (d.repo_id == r && d.id == i) = true
    · have hfd : (if (d.repo_id == r && d.id == i) = true then x else d) = x :=
        if_pos hd
      rw [hfd]
      have hx : (x.repo_id == r && x.id == i) = true := by simp [hx1, hx2]
      exact List.find?_cons_of_pos _ hx
    · have hfd : (if (d.repo_id == r && d.id == i) = true then x else d) = d :=
        if_neg hd
      have hdf : (d.repo_id == r && d.id == i) = false := by simpa using hd
      rw [hfd, List.find?_cons, hdf]
      rw [find_one_distributor, List.find?_cons, hdf] at h
      exact ih h

/-- Error component of an operation result, if it failed. -/
def OpResult.errOf : OpResult E M σ α → Option (PulpError E M)
  | .err e _ => some e
  | .ok _ _ => none

/-- Value component of an operation result, if it succeeded. -/
def OpResult.valOf : OpResult E M σ α → Option α
  | .err _ _ => none
  | .ok v _ => some v

/-- Database state at the end of an operation (success or failure). -/
def OpResult.stateOf : OpResult E M σ α → σ
  | .err _ s => s
  | .ok _ s => s

/-- Exhaustive outcome analysis of `remove_distributor` when the repo exists:
the binding is absent (error, nothing touched), the `distributor_removed`
callback raised (error, schedules already deleted, document kept), or the
removal went through (no record with the key remains). -/
theorem remove_distributor_cases (api : PluginApi V E M)
    (repo_id distributor_id : String) (db : Database V)
    (hrepo : db.repos.contains repo_id = true) :
    (remove_distributor api repo_id distributor_id db =
        .err (.missingResource [("distributor", distributor_id)]) db ∧
      find_one_distributor db.distributors repo_id distributor_id = none) ∨
    (∃ rd e, find_one_distributor db.distributors repo_id distributor_id = some rd ∧
      (api.get_distributor_by_id rd.distributor_type_id).distributor_removed
        ⟨(api.get_distributor_by_id rd.distributor_type_id).plugin_config,
          some rd.config⟩ = .exc e ∧
      remove_distributor api repo_id distributor_id db =
        .err (.raised e) (delete_by_distributor_id repo_id rd.id db)) ∨
    (∃ s, remove_distributor api repo_id distributor_id db = .ok () s ∧
      find_one_distributor s.distributors repo_id distributor_id = none ∧
      s.repos = db.repos) := by
  have hmem : repo_id ∈ db.repos := by simpa using hrepo
  cases hf : find_one_distributor db.distributors repo_id distributor_id with
  | none =>
    left
    refine ⟨?_, rfl⟩
    rw [remove_distributor]
    simp [hmem, hf]
  | some rd =>
    cases hrm : (api.get_distributor_by_id rd.distributor_type_id).distributor_removed
        ⟨(api.get_distributor_by_id rd.distributor_type_id).plugin_config,
          some rd.config⟩ with
    | exc e =>
      right; left
      refine ⟨rd, e, rfl, hrm, ?_⟩
      rw [remove_distributor]
      simp [hmem, hf, hrm]
    | ok u =>
      right; right
      refine ⟨{ delete_by_distributor_id repo_id rd.id db with distributors :=
          ((delete_by_distributor_id repo_id rd.id db).distributors.filter
            (fun d => !(d.repo_id == repo_id && d.id == distributor_id))) }, ?_, ?_, rfl⟩
      · rw [remove_distributor]
        simp [hmem, hf, hrm]
      · exact find_one_filter_self _ repo_id distributor_id

/-! Concrete fixtures (all type parameters instantiated at `String`) used by
the closed witness and counterexample theorems below. -/

/-- A plugin that accepts every configuration and whose callbacks succeed. -/
def okPlugin : DistributorPlugin String String String :=
  { plugin_config := [],
    validate_config := fun _ => .ok (.bool true),
    distributor_added := fun _ => .ok (),
    distributor_removed := fun _ => .ok () }

/-- A plugin whose `distributor_added` raises. -/
def addedRaisesPlugin : DistributorPlugin String String String :=
  { okPlugin with distributor_added := fun _ => .exc "boom" }

/-- A plugin whose `distributor_removed` raises. -/
def removedRaisesPlugin : DistributorPlugin String String String :=
  { okPlugin with distributor_removed := fun _ => .exc "boom" }

/-- A plugin whose `validate_config` itself raises. -/
def validateRaisesPlugin : DistributorPlugin String String String :=
  { okPlugin with validate_config := fun _ => .exc "boom" }

/-- A plugin that rejects every configuration with the message `"foo"`. -/
def rejectPlugin : DistributorPlugin String String String :=
  { okPlugin with validate_config := fun _ => .ok (.tuple false (some "foo")) }

/-- A registry where every type id is valid and resolves to `p`. -/
def apiWith (p : DistributorPlugin String String String) :
    PluginApi String String String :=
  ⟨fun _ => true, fun _ => p⟩

/-- A database with one repo `"r"` and no distributors. -/
def db0 : Database String := ⟨["r"], [], []⟩

/-- A pre-existing binding `("r", "d")` with a config, a scratchpad value and
a schedule. -/
def oldBinding : RepoDistributor String :=
  ⟨"r", "d", "t-old", [("x", some "x")], .bool false, some "sp", ["s1"]⟩

/-- A database with repo `"r"`, the binding `oldBinding` and its schedule
association. -/
def db1 : Database String := ⟨["r"], [oldBinding], [("r", "d")]⟩

example : stripNone [("a", some "a"), ("b", (none : Option String))] = [("a", some "a")] := by
  decide

example :
    add_distributor (apiWith addedRaisesPlugin) "g" "r" "t" (some []) (.bool true)
      (some "d") db1 = .err .executionException ⟨["r"], [], []⟩ := by
  decide

example :
    remove_distributor (apiWith okPlugin) "r" "d" db0 =
      .err (.missingResource [("distributor", "d")]) db0 := by
  decide

example :
    remove_distributor (apiWith okPlugin) "q" "d" db0 =
      .err (.missingResource [("repository", "q")]) db0 := by
  decide

example :
    remove_distributor (apiWith removedRaisesPlugin) "r" "d" db1 =
      .err (.raised "boom") ⟨["r"], [oldBinding], []⟩ := by
  decide

example :
    add_distributor (apiWith validateRaisesPlugin) "g" "r" "t" (some []) (.bool true)
      (some "d") db0 = .err (.raised "boom") db0 := by
  decide

example :
    update_distributor_config (apiWith validateRaisesPlugin) "r" "d" [] none db1 =
      .err (.dataWrapped "boom") db1 := by
  decide

example :
    lastHeartbeat (handle_worker_heartbeat "W" 1 (handle_worker_heartbeat "W" 2 ⟨[]⟩)) "W" =
      some 1 := by
  decide

example :
    get_distributor (E := String) (M := String) "r" "d" ⟨[], [oldBinding], []⟩ =
      .ok oldBinding ⟨[], [oldBinding], []⟩ := by
  decide

example :
    (let m := mergedConfig [("a", some "a"), ("b", some "b"), ("c", some "c")]
      [("a", some "A"), ("b", (none : Option String)), ("d", some "D")]
     dictFind m "a" = some (some "A") ∧ dictFind m "b" = none ∧
       dictFind m "c" = some (some "c") ∧ dictFind m "d" = some (some "D") ∧
       dictKeys m = ["c", "a", "d"]) := by
  decide

/-! Claim theorems. -/

/-- C1 (counterexample): the claim says a failed `on_added` still leaves a
persisted binding for the `(owner_id, binding_id)`.  Concretely, adding over
the existing binding `("r", "d")` with a plugin whose `distributor_added`
raises fails with an execution error, yet the final store holds NO
distributor documents at all: the old binding was removed by the replace
step and the new document write never happened, because the save is only
executed after `distributor_added` returns. -/
theorem add_distributor_on_added_failure_persists_refuted :
    add_distributor (apiWith addedRaisesPlugin) "g" "r" "t" (some []) (.bool true)
        (some "d") db1 = .err .executionException ⟨["r"], [], []⟩ ∧
      find_one_distributor ([] : List (RepoDistributor String)) "r" "d" = none := by
  decide

/-- C1 (amended): an add operation in which the plugin's `on_added` callback
raises fails with an execution error, and NO binding document for the
`(owner_id, binding_id)` pair is persisted: the document write happens only
after the callback returns, and any pre-existing binding under the same id
has already been removed by the replace step and is not restored. -/
theorem add_distributor_on_added_failure_leaves_no_binding
    (api : PluginApi V E M) (fresh_id repo_id dtid : String)
    (cfg : Option (Dict (Option V))) (ap : PyBool V) (did : String)
    (db : Database V) (e : E) (r : ValidateReturn M)
    (hrepo : db.repos.contains repo_id = true)
    (htype : api.is_valid_distributor dtid = true)
    (hid : is_distributor_id_valid did = true)
    (hval : ∀ cc, (api.get_distributor_by_id dtid).validate_config cc = .ok r)
    (hr : (normalizeValidate r).1 = true)
    (hadd : ∀ cc, (api.get_distributor_by_id dtid).distributor_added cc = .exc e)
    (hrem : ∀ t cc, (api.get_distributor_by_id t).distributor_removed cc = .ok ()) :
    (add_distributor api fresh_id repo_id dtid cfg ap (some did) db).errOf =
        some .executionException ∧
      find_one_distributor
        (add_distributor api fresh_id repo_id dtid cfg ap (some did) db).stateOf.distributors
        repo_id did = none := by
  rw [add_distributor]
  simp only [hrepo, htype, hid, eq_self_iff_true, if_true]
  rw [add_distributor_steps, hval]
  simp only [hr, eq_self_iff_true, if_true]
  rcases remove_distributor_cases api repo_id did db hrepo with
    ⟨hrm, hfn⟩ | ⟨rd, e2, hf, hx, _⟩ | ⟨s, hok, hfn, _⟩
  · rw [hrm, hadd]
    exact ⟨rfl, hfn⟩
  · rw [hrem rd.distributor_type_id _] at hx
    cases hx
  · rw [hok, hadd]
    exact ⟨rfl, hfn⟩

/-- C1 (witness): the amended theorem applied at the concrete refuting
input. -/
theorem add_distributor_on_added_failure_leaves_no_binding_witness :
    (add_distributor (apiWith addedRaisesPlugin) "g" "r" "t" (some [])
        (PyBool.bool true) (some "d") db1).errOf = some .executionException ∧
      find_one_distributor
        (add_distributor (apiWith addedRaisesPlugin) "g" "r" "t" (some [])
          (PyBool.bool true) (some "d") db1).stateOf.distributors "r" "d" = none :=
  add_distributor_on_added_failure_leaves_no_binding (apiWith addedRaisesPlugin)
    "g" "r" "t" (some []) (.bool true) "d" db1 "boom" (.bool true)
    (by decide) rfl (by decide) (fun _ => rfl) rfl (fun _ => rfl) (fun _ _ => rfl)

/-- Processing a heartbeat for a worker always leaves that worker's stored
`last_heartbeat` equal to the timestamp of the event just processed,
whether the record was created or updated by the unconditional set. -/
theorem lastHeartbeat_handle_self (c : WorkerCollection) (n : String) (t : Nat) :
    lastHeartbeat (handle_worker_heartbeat n t c) n = some t := by
  rw [handle_worker_heartbeat]
  by_cases h : c.workers.any (fun w => w.name == n) = true
  · simp only [h, eq_self_iff_true, if_true]
    rw [lastHeartbeat]
    rw [List.find?_map]
    have hfun : ((fun w : Worker => w.name == n) ∘
        (fun w : Worker => if w.name == n then { w with last_heartbeat := t } else w)) =
        (fun w : Worker => w.name == n) := by
      funext w
      simp only [Function.comp_apply]
      by_cases hw : (w.name == n) = true
      · rw [if_pos hw]
      · rw [if_neg hw]
    rw [hfun]
    obtain ⟨w, hw, hpw⟩ := List.any_eq_true.mp h
    cases hf : c.workers.find? (fun w => w.name == n) with
    | none =>
      rw [List.find?_eq_none] at hf
      exact absurd hpw (hf w hw)
    | some w0 =>
      have hp0 := List.find?_some hf
      simp only [] at hp0
      have he : w0.name = n := by simpa using hp0
      simp [hp0, he]
  · have hfalse : c.workers.any (fun w => w.name == n) = false := by
      simpa using h
    simp only [hfalse, Bool.false_eq_true, if_false]
    rw [lastHeartbeat, List.find?_append]
    have hnone : c.workers.find? (fun w => w.name == n) = none := by
      rw [List.find?_eq_none]
      intro w hw
      rcases List.any_eq_false.mp hfalse w hw with hq
      exact hq
    rw [hnone]
    simp [List.find?]

/-- C2 (counterexample): the claim says two heartbeats with `t1 < t2`
converge to `t2` in either processing order.  Processing the `t2 = 2` event
first and the `t1 = 1` event second leaves `last_heartbeat = 1`: the handler
performs an unconditional set, so the later timestamp is overwritten by the
earlier one when events arrive out of order. -/
theorem heartbeat_out_of_order_keeps_earlier_timestamp :
    (1 : Nat) < 2 ∧
      lastHeartbeat (handle_worker_heartbeat "W" 1
        (handle_worker_heartbeat "W" 2 ⟨[]⟩)) "W" ≠ some 2 ∧
      lastHeartbeat (handle_worker_heartbeat "W" 1
        (handle_worker_heartbeat "W" 2 ⟨[]⟩)) "W" = some 1 := by
  decide

/-- C2 (amended): two heartbeat events for the same worker converge to the
timestamp of the event processed LAST, regardless of which timestamp is
larger: processing `t1` then `t2` yields `t2`, and processing `t2` then `t1`
yields `t1`.  The handler's unconditional `$set` is last-write-wins by
processing order, not by timestamp. -/
theorem heartbeat_last_processed_wins (c : WorkerCollection) (n : String)
    (t1 t2 : Nat) :
    lastHeartbeat (handle_worker_heartbeat n t2
        (handle_worker_heartbeat n t1 c)) n = some t2 ∧
      lastHeartbeat (handle_worker_heartbeat n t1
        (handle_worker_heartbeat n t2 c)) n = some t1 :=
  ⟨lastHeartbeat_handle_self _ n t2, lastHeartbeat_handle_self _ n t1⟩

/-- C3: a `validate_config` verdict that normalizes to invalid (either the
bare-bool or the tuple return shape) makes both `add_distributor` and
`update_distributor_config` fail with `PulpDataException` carrying the
plugin's message, with the database completely unchanged; in particular an
existing binding under the same id survives an invalid `add`, because
validation happens before the replace step. -/
theorem rejected_configuration_no_state_change
    (api : PluginApi V E M) (fresh_id repo_id dtid did : String)
    (cfg : Option (Dict (Option V))) (ap : PyBool V)
    (delta : Dict (Option V)) (ap2 : Option (PyBool V))
    (db : Database V) (r r2 : ValidateReturn M) (rd : RepoDistributor V)
    (hrepo : db.repos.contains repo_id = true) :
    ((api.is_valid_distributor dtid = true) →
      (is_distributor_id_valid did = true) →
      (∀ cc, (api.get_distributor_by_id dtid).validate_config cc = .ok r) →
      ((normalizeValidate r).1 = false) →
      add_distributor api fresh_id repo_id dtid cfg ap (some did) db =
        .err (.dataException (normalizeValidate r).2) db) ∧
    ((find_one_distributor db.distributors repo_id did = some rd) →
      (∀ cc, (api.get_distributor_by_id rd.distributor_type_id).validate_config cc =
        .ok r2) →
      ((normalizeValidate r2).1 = false) →
      update_distributor_config api repo_id did delta ap2 db =
        .err (.dataException (normalizeValidate r2).2) db) := by
  constructor
  · intro htype hid hval hr
    rw [add_distributor]
    simp only [hrepo, htype, hid, eq_self_iff_true, if_true]
    rw [add_distributor_steps, hval]
    simp only [hr, Bool.false_eq_true, if_false]
  · intro hfind hval hr
    rw [update_distributor_config]
    simp only [hrepo, eq_self_iff_true, if_true]
    rw [hfind]
    simp only []
    rw [hval]
    simp only [hr, Bool.false_eq_true, if_false]

/-- C3 (witness): a plugin rejecting with `(false, "foo")` makes `add` over
the existing binding and `update` of that binding fail with the message
`"foo"` and leave `db1` untouched. -/
theorem rejected_configuration_no_state_change_witness :
    add_distributor (apiWith rejectPlugin) "g" "r" "t" (some []) (PyBool.bool true)
        (some "d") db1 = .err (.dataException (some "foo")) db1 ∧
      update_distributor_config (apiWith rejectPlugin) "r" "d" [("a", some "A")]
        none db1 = .err (.dataException (some "foo")) db1 :=
  ⟨(rejected_configuration_no_state_change (apiWith rejectPlugin) "g" "r" "t" "d"
      (some []) (.bool true) [("a", some "A")] none db1
      (.tuple false (some "foo")) (.tuple false (some "foo")) oldBinding
      (by decide)).1 rfl (by decide) (fun _ => rfl) rfl,
   (rejected_configuration_no_state_change (apiWith rejectPlugin) "g" "r" "t" "d"
      (some []) (.bool true) [("a", some "A")] none db1
      (.tuple false (some "foo")) (.tuple false (some "foo")) oldBinding
      (by decide)).2 (by decide) (fun _ => rfl) rfl⟩

/-- A binding holding the stored config of the specification's merge
example. -/
def abcBinding : RepoDistributor String :=
  ⟨"r", "d", "t", [("a", some "a"), ("b", some "b"), ("c", some "c")],
    .bool true, none, []⟩

/-- Database holding `abcBinding`. -/
def db2 : Database String := ⟨["r"], [abcBinding], []⟩

/-- The specification's example delta. -/
def deltaEx : Dict (Option String) :=
  [("a", some "A"), ("b", none), ("d", some "D")]

/-- C4: a successful update persists exactly the merge of the stored config
with the delta — keys whose delta value is the unset sentinel disappear,
every other delta entry overwrites or adds, untouched keys keep their stored
value — and a sentinel value can only survive into the merged config if the
stored config already contained one, so the sentinel never reaches the
plugin or the persisted value. -/
theorem update_distributor_config_merge_semantics
    (api : PluginApi V E M) (repo_id did : String) (delta : Dict (Option V))
    (db : Database V) (rd : RepoDistributor V) (r : ValidateReturn M)
    (hrepo : db.repos.contains repo_id = true)
    (hfind : find_one_distributor db.distributors repo_id did = some rd)
    (hnd : (dictKeys delta).Nodup)
    (hval : ∀ cc, (api.get_distributor_by_id rd.distributor_type_id).validate_config cc =
      .ok r)
    (hr : (normalizeValidate r).1 = true) :
    update_distributor_config api repo_id did delta none db =
        .ok ({ rd with config := mergedConfig rd.config delta })
          { db with distributors :=
            (db.distributors.map (fun d =>
              if d.repo_id == repo_id && d.id == did then
                { rd with config := mergedConfig rd.config delta } else d)) } ∧
      (∀ k, dictFind (mergedConfig rd.config delta) k =
        match dictFind delta k with
        | some none => none
        | some (some v) => some (some v)
        | none => dictFind rd.config k) ∧
      ((∀ k, dictFind rd.config k ≠ some none) →
        ∀ k, dictFind (mergedConfig rd.config delta) k ≠ some none) ∧
      find_one_distributor
        (db.distributors.map (fun d =>
          if d.repo_id == repo_id && d.id == did then
            { rd with config := mergedConfig rd.config delta } else d)) repo_id did =
        some ({ rd with config := mergedConfig rd.config delta }) := by
  have hchar := fun k => dictFind_mergedConfig rd.config delta k hnd
  refine ⟨?_, hchar, ?_, ?_⟩
  · rw [update_distributor_config]
    simp only [hrepo, eq_self_iff_true, if_true]
    rw [hfind]
    simp only []
    rw [hval]
    simp only [hr, eq_self_iff_true, if_true]
  · intro hnf k hc
    rw [hchar k] at hc
    cases hdk : dictFind delta k with
    | none => rw [hdk] at hc; exact hnf k hc
    | some v =>
      cases v with
      | none => rw [hdk] at hc; cases hc
      | some v0 => rw [hdk] at hc; cases hc
  · have hfs := hfind
    rw [find_one_distributor] at hfs
    have hp := List.find?_some hfs
    simp only [Bool.and_eq_true, beq_iff_eq] at hp
    exact find_one_map_replace db.distributors rd _ repo_id did hfind hp.1 hp.2

/-- C4 (witness): the merge-semantics theorem at the specification's example:
delta `{a: "A", b: unset, d: "D"}` against stored `{a:"a", b:"b", c:"c"}`
persists the map `{a:"A", c:"c", d:"D"}`. -/
theorem update_distributor_config_merge_semantics_witness :
    dictFind (mergedConfig abcBinding.config deltaEx) "a" = some (some "A") ∧
      dictFind (mergedConfig abcBinding.config deltaEx) "b" = none ∧
      dictFind (mergedConfig abcBinding.config deltaEx) "c" = some (some "c") ∧
      dictFind (mergedConfig abcBinding.config deltaEx) "d" = some (some "D") ∧
      update_distributor_config (apiWith okPlugin) "r" "d" deltaEx none db2 =
        .ok ({ abcBinding with config := mergedConfig abcBinding.config deltaEx })
          ⟨["r"], [{ abcBinding with config := mergedConfig abcBinding.config deltaEx }],
            []⟩ :=
  ⟨(update_distributor_config_merge_semantics (apiWith okPlugin) "r" "d" deltaEx db2
      abcBinding (.bool true) (by decide) (by decide) (by decide)
      (fun _ => rfl) rfl).2.1 "a",
   (update_distributor_config_merge_semantics (apiWith okPlugin) "r" "d" deltaEx db2
      abcBinding (.bool true) (by decide) (by decide) (by decide)
      (fun _ => rfl) rfl).2.1 "b",
   (update_distributor_config_merge_semantics (apiWith okPlugin) "r" "d" deltaEx db2
      abcBinding (.bool true) (by decide) (by decide) (by decide)
      (fun _ => rfl) rfl).2.1 "c",
   (update_distributor_config_merge_semantics (apiWith okPlugin) "r" "d" deltaEx db2
      abcBinding (.bool true) (by decide) (by decide) (by decide)
      (fun _ => rfl) rfl).2.1 "d",
   (update_distributor_config_merge_semantics (apiWith okPlugin) "r" "d" deltaEx db2
      abcBinding (.bool true) (by decide) (by decide) (by decide)
      (fun _ => rfl) rfl).1⟩

/-- C5 (counterexample): removing a missing binding under an existing owner
fails with a `MissingResource` whose keyword arguments name only the
distributor — the error does not identify the owner, contrary to the
claim. -/
theorem remove_distributor_missing_binding_error_omits_owner :
    remove_distributor (apiWith okPlugin) "r" "d" db0 =
        .err (.missingResource [("distributor", "d")]) db0 ∧
      [(("distributor" : String), ("d" : String))].lookup "repository" = none ∧
      [(("distributor" : String), ("d" : String))].lookup "distributor" = some "d" := by
  decide

/-- C5 (amended): `remove` on a missing owner fails `MissingResource`
identifying only the owner, and `remove` on a missing binding under an
existing owner fails `MissingResource` identifying only the binding (not
also the owner, as the claim stated); in both failure cases the database is
unchanged, so nothing is deleted. -/
theorem remove_distributor_missing_errors
    (api : PluginApi V E M) (repo_id did : String) (db : Database V) :
    ((db.repos.contains repo_id = false) →
      remove_distributor api repo_id did db =
        .err (.missingResource [("repository", repo_id)]) db) ∧
    ((db.repos.contains repo_id = true) →
      (find_one_distributor db.distributors repo_id did = none) →
      remove_distributor api repo_id did db =
        .err (.missingResource [("distributor", did)]) db) := by
  constructor
  · intro h
    rw [remove_distributor]
    simp only [h, Bool.false_eq_true, if_false]
  · intro h1 h2
    rw [remove_distributor]
    simp only [h1, eq_self_iff_true, if_true]
    rw [h2]

/-- C5 (witness): both failure modes at concrete inputs. -/
theorem remove_distributor_missing_errors_witness :
    remove_distributor (apiWith okPlugin) "q" "d" db0 =
        .err (.missingResource [("repository", "q")]) db0 ∧
      remove_distributor (apiWith okPlugin) "r" "d" db0 =
        .err (.missingResource [("distributor", "d")]) db0 :=
  ⟨(remove_distributor_missing_errors (apiWith okPlugin) "q" "d" db0).1 (by decide),
   (remove_distributor_missing_errors (apiWith okPlugin) "r" "d" db0).2
      (by decide) (by decide)⟩

/-- C6 (counterexample): when `distributor_removed` raises, the failure that
propagates out of `remove_distributor` is the plugin's own exception, not a
wrapped execution error: the result is `raised "boom"`, which differs from
`executionException`.  (The binding document is indeed retained.) -/
theorem remove_distributor_on_removed_failure_unwrapped :
    remove_distributor (apiWith removedRaisesPlugin) "r" "d" db1 =
        .err (.raised "boom") ⟨["r"], [oldBinding], []⟩ ∧
      (PulpError.raised (E := String) (M := String) "boom" ≠ .executionException) ∧
      find_one_distributor [oldBinding] "r" "d" = some oldBinding := by
  decide

/-- C6 (amended): a remove operation whose `on_removed` callback raises
aborts with the plugin's exception propagated unwrapped (the source has no
try/except around this callback, so it is not converted into an execution
error), the binding document is still present in the store — the document
delete runs only after the callback returns — and the schedule associations
of the binding have already been deleted before the callback ran. -/
theorem remove_distributor_on_removed_failure_retains_binding
    (api : PluginApi V E M) (repo_id did : String) (db : Database V)
    (rd : RepoDistributor V) (e : E)
    (hrepo : db.repos.contains repo_id = true)
    (hfind : find_one_distributor db.distributors repo_id did = some rd)
    (hrem : ∀ cc, (api.get_distributor_by_id rd.distributor_type_id).distributor_removed
      cc = .exc e) :
    remove_distributor api repo_id did db =
        .err (.raised e) (delete_by_distributor_id repo_id rd.id db) ∧
      find_one_distributor
        (delete_by_distributor_id repo_id rd.id db).distributors repo_id did =
        some rd ∧
      (∀ p ∈ (delete_by_distributor_id repo_id rd.id db).publish_schedules,
        ¬(p.1 = repo_id ∧ p.2 = rd.id)) := by
  refine ⟨?_, hfind, ?_⟩
  · rw [remove_distributor]
    simp only [hrepo, eq_self_iff_true, if_true]
    rw [hfind]
    simp only []
    rw [hrem]
  · intro p hp hc
    rw [delete_by_distributor_id] at hp
    simp only [List.mem_filter] at hp
    rcases hc with ⟨h1, h2⟩
    rw [h1, h2] at hp
    simp at hp

/-- C6 (witness): the amended theorem at the concrete input: the raising
plugin leaves the error `raised "boom"`, the binding still stored, and the
schedule list empty. -/
theorem remove_distributor_on_removed_failure_retains_binding_witness :
    remove_distributor (apiWith removedRaisesPlugin) "r" "d" db1 =
        .err (.raised "boom") (delete_by_distributor_id "r" "d" db1) ∧
      find_one_distributor (delete_by_distributor_id "r" "d" db1).distributors
        "r" "d" = some oldBinding :=
  ⟨(remove_distributor_on_removed_failure_retains_binding
      (apiWith removedRaisesPlugin) "r" "d" db1 oldBinding "boom"
      (by decide) (by decide) (fun _ => rfl)).1,
   (remove_distributor_on_removed_failure_retains_binding
      (apiWith removedRaisesPlugin) "r" "d" db1 oldBinding "boom"
      (by decide) (by decide) (fun _ => rfl)).2.1⟩

/-- C7 (counterexample): in `add_distributor` a raising `validate_config`
is NOT wrapped into a `PulpDataException` (there is no try/except around
the validation call in `add`): the operation fails with the plugin's own
exception, which is not a data exception of either payload shape. -/
theorem add_validate_exception_not_rejected_configuration :
    add_distributor (apiWith validateRaisesPlugin) "g" "r" "t" (some [])
        (.bool true) (some "d") db0 = .err (.raised "boom") db0 ∧
      (PulpError.raised (E := String) (M := String) "boom").isDataException = false := by
  decide

/-- C7 (amended): a raising `validate_config` aborts with no persisted state
change in both operations, but the error classification differs:
`update_distributor_config` wraps the exception as `PulpDataException(e.args)`
(the rejected-configuration family), while `add_distributor` lets the
plugin's exception propagate unwrapped. -/
theorem validate_config_exception_handling
    (api : PluginApi V E M) (fresh_id repo_id dtid did : String)
    (cfg : Option (Dict (Option V))) (ap : PyBool V)
    (delta : Dict (Option V)) (ap2 : Option (PyBool V))
    (db : Database V) (e : E) (rd : RepoDistributor V)
    (hrepo : db.repos.contains repo_id = true) :
    ((find_one_distributor db.distributors repo_id did = some rd) →
      (∀ cc, (api.get_distributor_by_id rd.distributor_type_id).validate_config cc =
        .exc e) →
      update_distributor_config api repo_id did delta ap2 db =
        .err (.dataWrapped e) db) ∧
    ((api.is_valid_distributor dtid = true) →
      (is_distributor_id_valid did = true) →
      (∀ cc, (api.get_distributor_by_id dtid).validate_config cc = .exc e) →
      add_distributor api fresh_id repo_id dtid cfg ap (some did) db =
        .err (.raised e) db) := by
  constructor
  · intro hfind hval
    rw [update_distributor_config]
    simp only [hrepo, eq_self_iff_true, if_true]
    rw [hfind]
    simp only []
    rw [hval]
  · intro htype hid hval
    rw [add_distributor]
    simp only [hrepo, htype, hid, eq_self_iff_true, if_true]
    rw [add_distributor_steps, hval]

/-- C7 (witness): the amended theorem at concrete inputs: the raising
validator yields `PulpDataException(e.args)` from `update` and the raw
exception from `add`. -/
theorem validate_config_exception_handling_witness :
    update_distributor_config (apiWith validateRaisesPlugin) "r" "d" [] none db1 =
        .err (.dataWrapped "boom") db1 ∧
      add_distributor (apiWith validateRaisesPlugin) "g" "r" "t" (some [])
        (PyBool.bool true) (some "d") db0 = .err (.raised "boom") db0 :=
  ⟨(validate_config_exception_handling (apiWith validateRaisesPlugin) "g" "r" "t" "d"
      (some []) (.bool true) [] none db1 "boom" oldBinding (by decide)).1
      (by decide) (fun _ => rfl),
   (validate_config_exception_handling (apiWith validateRaisesPlugin) "g" "r" "t" "d"
      (some []) (.bool true) [] none db0 "boom" oldBinding (by decide)).2
      rfl (by decide) (fun _ => rfl)⟩

/-- Stripping unset-marker keys is idempotent. -/
theorem stripNone_idem (cfg : Dict (Option V)) :
    stripNone (stripNone cfg) = stripNone cfg := by
  induction cfg with
  | nil => rfl
  | cons p d ih =>
    simp only [stripNone] at *
    rw [List.filter_cons]
    by_cases hp : p.2.isSome = true
    · rw [if_pos hp, List.filter_cons, if_pos hp, ih]
    · rw [if_neg hp, ih]

/-- C8: `add_distributor` behaves identically on a supplied config and on
its sentinel-stripped form (so the sentinel keys influence neither the
validation call, the plugin callbacks, nor anything persisted), and a
successful add returns and persists a binding whose config is exactly the
stripped map, in which no key is bound to the sentinel. -/
theorem add_distributor_strips_unset_keys
    (api : PluginApi V E M) (fresh_id repo_id dtid did : String)
    (cfg : Dict (Option V)) (ap : PyBool V) (db : Database V)
    (r : ValidateReturn M)
    (hrepo : db.repos.contains repo_id = true)
    (htype : api.is_valid_distributor dtid = true)
    (hid : is_distributor_id_valid did = true)
    (hval : ∀ cc, (api.get_distributor_by_id dtid).validate_config cc = .ok r)
    (hr : (normalizeValidate r).1 = true)
    (hadd : ∀ cc, (api.get_distributor_by_id dtid).distributor_added cc = .ok ())
    (hrem : ∀ t cc, (api.get_distributor_by_id t).distributor_removed cc = .ok ()) :
    add_distributor api fresh_id repo_id dtid (some cfg) ap (some did) db =
        add_distributor api fresh_id repo_id dtid (some (stripNone cfg)) ap
          (some did) db ∧
      (add_distributor api fresh_id repo_id dtid (some cfg) ap (some did) db).valOf =
        some ⟨repo_id, did, dtid, stripNone cfg, ap, none, []⟩ ∧
      (∀ p ∈ stripNone cfg, p.2 ≠ none) ∧
      find_one_distributor
        (add_distributor api fresh_id repo_id dtid (some cfg) ap
          (some did) db).stateOf.distributors repo_id did =
        some ⟨repo_id, did, dtid, stripNone cfg, ap, none, []⟩ := by
  have hstrip : add_distributor api fresh_id repo_id dtid (some cfg) ap (some did) db =
      add_distributor api fresh_id repo_id dtid (some (stripNone cfg)) ap
        (some did) db := by
    simp only [add_distributor, add_distributor_steps, Option.map_some', stripNone_idem]
  refine ⟨hstrip, ?_, ?_, ?_⟩
  · rw [add_distributor]
    simp only [hrepo, htype, hid, eq_self_iff_true, if_true]
    rw [add_distributor_steps, hval]
    simp only [hr, eq_self_iff_true, if_true]
    rcases remove_distributor_cases api repo_id did db hrepo with
      ⟨hrm, hfn⟩ | ⟨rd, e2, hf, hx, _⟩ | ⟨s, hok, hfn, _⟩
    · rw [hrm, hadd]
      rfl
    · rw [hrem rd.distributor_type_id _] at hx
      cases hx
    · rw [hok, hadd]
      rfl
  · intro p hp hc
    rw [stripNone, List.mem_filter] at hp
    rw [hc] at hp
    simp at hp
  · rw [add_distributor]
    simp only [hrepo, htype, hid, eq_self_iff_true, if_true]
    rw [add_distributor_steps, hval]
    simp only [hr, eq_self_iff_true, if_true]
    rcases remove_distributor_cases api repo_id did db hrepo with
      ⟨hrm, hfn⟩ | ⟨rd, e2, hf, hx, _⟩ | ⟨s, hok, hfn, _⟩
    · rw [hrm, hadd]
      exact find_one_append_self _ _ repo_id did rfl rfl hfn
    · rw [hrem rd.distributor_type_id _] at hx
      cases hx
    · rw [hok, hadd]
      exact find_one_append_self _ _ repo_id did rfl rfl hfn

/-- C8 (witness): adding with config `{a: "a", b: unset}` persists and
returns the config `{a: "a"}`. -/
theorem add_distributor_strips_unset_keys_witness :
    (add_distributor (apiWith okPlugin) "g" "r" "t"
        (some [("a", some "a"), ("b", none)]) (PyBool.bool true)
        (some "d") db0).valOf =
      some ⟨"r", "d", "t", [("a", some "a")], .bool true, none, []⟩ :=
  (add_distributor_strips_unset_keys (apiWith okPlugin) "g" "r" "t" "d"
    [("a", some "a"), ("b", none)] (.bool true) db0 (.bool true)
    (by decide) rfl (by decide) (fun _ => rfl) rfl (fun _ => rfl)
    (fun _ _ => rfl)).2.1

/-- C9: every record returned by `find_by_repo_list` has no scratchpad (the
projection `{'scratchpad': 0}` removes the field from every result), and the
query's result is completely independent of the scratchpad values stored in
the collection. -/
theorem find_by_repo_list_excludes_scratchpad
    (ids : List String) (db : Database V) (f : RepoDistributor V → Option V) :
    (∀ r ∈ find_by_repo_list ids db, r.scratchpad = none) ∧
      find_by_repo_list ids
        { db with distributors :=
          (db.distributors.map (fun d => { d with scratchpad := f d })) } =
        find_by_repo_list ids db := by
  constructor
  · intro r hr
    rw [find_by_repo_list, List.mem_map] at hr
    obtain ⟨d, _, hd⟩ := hr
    rw [← hd]
  · rw [find_by_repo_list, find_by_repo_list]
    simp only []
    rw [List.filter_map, List.map_map]
    rfl

/-- C9 (witness): on `db1`, whose stored binding carries the scratchpad
value `"sp"`, the single returned record has no scratchpad. -/
theorem find_by_repo_list_excludes_scratchpad_witness :
    ({ oldBinding with scratchpad := none } : RepoDistributor String).scratchpad =
      none :=
  (find_by_repo_list_excludes_scratchpad ["r"] db1 (fun _ => none)).1
    { oldBinding with scratchpad := none } (by decide)

/-- C10: `get_distributor` consults only the distributor collection.  When no
matching binding exists it fails `MissingResource` naming only the binding
(never the owner), whatever the repo collection contains; when a matching
record exists it is returned even if the owner repo has been deleted; and
both the value and the error of the operation are invariant under arbitrary
changes to the repo collection. -/
theorem get_distributor_ignores_repo_collection
    (repo_id did : String) (db : Database V) (rd : RepoDistributor V) :
    ((find_one_distributor db.distributors repo_id did = none) →
      get_distributor (E := E) (M := M) repo_id did db =
        .err (.missingResource [("distributor", did)]) db) ∧
    ((find_one_distributor db.distributors repo_id did = some rd) →
      get_distributor (E := E) (M := M) repo_id did db = .ok rd db) ∧
    (∀ repos2,
      (get_distributor (E := E) (M := M) repo_id did
          { db with repos := repos2 }).errOf =
        (get_distributor (E := E) (M := M) repo_id did db).errOf ∧
      (get_distributor (E := E) (M := M) repo_id did
          { db with repos := repos2 }).valOf =
        (get_distributor (E := E) (M := M) repo_id did db).valOf) := by
  refine ⟨?_, ?_, ?_⟩
  · intro h
    rw [get_distributor, h]
  · intro h
    rw [get_distributor, h]
  · intro repos2
    rw [get_distributor, get_distributor]
    simp only []
    cases find_one_distributor db.distributors repo_id did <;> exact ⟨rfl, rfl⟩

/-- C10 (witness): with the owner repo absent from the repo collection, the
stored binding is still returned; and on an empty distributor collection the
failure names only the binding. -/
theorem get_distributor_ignores_repo_collection_witness :
    get_distributor (E := String) (M := String) "r" "d" ⟨[], [oldBinding], []⟩ =
        .ok oldBinding ⟨[], [oldBinding], []⟩ ∧
      get_distributor (E := String) (M := String) "x" "y" db0 =
        .err (.missingResource [("distributor", "y")]) db0 :=
  ⟨(get_distributor_ignores_repo_collection "r" "d" ⟨[], [oldBinding], []⟩
      oldBinding).2.1 (by decide),
   (get_distributor_ignores_repo_collection "x" "y" db0 oldBinding).1 (by decide)⟩
